import Mathlib

/-!
Shallow embedding of `src/servers/screenshare_mcp.py` (a screen-capture MCP
server) and verification of the frozen claims about it.

Modelling conventions:
* The global `_SRC` dict is the state type `SrcState`, threaded explicitly.
* Interactions with the outside world (mss initialisation, the monitor list,
  per-frame grab/encode/write outcomes, timestamps) are environment records
  passed in; the Python functions' control flow over those outcomes is
  translated line by line.
* Python floats (`scale`, the `duration_ms / period_ms` quotient) are modelled
  as exact rationals; `round` is Python 3's round-half-to-even.
* Exceptions that the Python code does not catch are surfaced as the
  `PyResult.exn` constructor; code paths that catch an exception return the
  structured value the `except` block builds, exactly as in the source.
* Filesystem side effects are recorded as a list of `FsOp`; `mkdir` itself is
  modelled as always succeeding, and `os.path.expanduser` as the identity on
  path strings (no claim depends on home-directory expansion).
-/

namespace ScreenMCP

/-- One entry of `sct.monitors` (an mss monitor geometry dict). -/
structure Monitor where
  left : Int
  top : Int
  width : Int
  height : Int
deriving DecidableEq

/-- A region dict `{left, top, width, height}` as stored in `_SRC["region"]`. -/
structure Region where
  left : Int
  top : Int
  width : Int
  height : Int
deriving DecidableEq

/-- The `_SRC["props"]` dict populated by `_open_source`; the initial empty
dict `{}` is modelled as `none` at the use site. -/
structure Props where
  monitor_index : Int
  region : Region
  scale : ℚ
deriving DecidableEq

/-- The global `_SRC` capture configuration.  `sct = true` models a live
`mss.mss()` handle (`_SRC["sct"] is not None`). -/
structure SrcState where
  sct : Bool
  monitor_index : Int
  region : Option Region
  scale : ℚ
  props : Option Props
deriving DecidableEq

/-- The reset value written by `_close_source`
(`{"sct": None, "monitor_index": 1, "region": None, "scale": 1.0, "props": {}}`). -/
def defaultSrc : SrcState :=
  { sct := false, monitor_index := 1, region := none, scale := 1, props := none }

/-- Environment facts `_open_source` and `list_displays` depend on: whether
`mss.mss()` succeeds, its exception text when it fails, and `sct.monitors`. -/
structure MssEnv where
  mssOk : Bool
  mssErr : String
  monitors : List Monitor
deriving DecidableEq

/-- Operations on the mss handle performed by `_open_source` (acquisition and
release of the just-acquired handle). -/
inductive MssOp
  | acquire
  | close
deriving DecidableEq

/-- `scale = max(0.1, min(1.0, float(scale or 1.0)))`:
a zero (falsy) scale defaults to 1.0, then the value is clamped to [0.1, 1.0]. -/
def clampScale (scale : ℚ) : ℚ :=
  max (1/10) (min 1 (if scale = 0 then 1 else scale))

/-- Lines 75–89: the region is the full monitor when `width`/`height` ≤ 0,
otherwise the monitor origin plus clamped offsets and extents. -/
def resolveRegion (mon : Monitor) (left top width height : Int) : Region :=
  if width ≤ 0 ∨ height ≤ 0 then
    { left := mon.left, top := mon.top, width := mon.width, height := mon.height }
  else
    { left := mon.left + max 0 left, top := mon.top + max 0 top,
      width := max 1 width, height := max 1 height }

/-- Result of `_open_source`: the returned `(ok, msg)` pair, the `_SRC` state
after the call, and the mss-handle operations performed. -/
structure OpenResult where
  ok : Bool
  msg : String
  state : SrcState
  mssOps : List MssOp
deriving DecidableEq

/-- `_open_source(monitor_index, left, top, width, height, scale)`. -/
def _open_source (env : MssEnv) (s : SrcState)
    (monitor_index left top width height : Int) (scale : ℚ) : OpenResult :=
  if s.sct then
    { ok := true, msg := "Screen capture already initialized", state := s, mssOps := [] }
  else if env.mssOk = false then
    { ok := false, msg := "Failed to initialize mss: " ++ env.mssErr,
      state := s, mssOps := [] }
  else if monitor_index < 0 ∨ (env.monitors.length : Int) ≤ monitor_index then
    { ok := false,
      msg := "Invalid monitor_index " ++ toString monitor_index ++
        "; available 0.." ++ toString ((env.monitors.length : Int) - 1),
      state := s, mssOps := [.acquire, .close] }
  else
    let mon := env.monitors.getD monitor_index.toNat ⟨0, 0, 0, 0⟩
    let region := resolveRegion mon left top width height
    let sc := clampScale scale
    { ok := true, msg := "Screen source initialized",
      state := { sct := true, monitor_index := monitor_index, region := some region,
                 scale := sc,
                 props := some { monitor_index := monitor_index, region := region,
                                 scale := sc } },
      mssOps := [.acquire] }

/-- `_close_source()`: `sct.close()` is wrapped in `try/except Exception: pass`
(the `closeRaises` flag models whether the close call raises; either way it is
swallowed), then `_SRC` is reset to its defaults. -/
def _close_source (closeRaises : Bool) (s : SrcState) : SrcState :=
  defaultSrc

/-- Response dict of `screenshare_start`. -/
structure StartResp where
  ok : Bool
  message : String
  props : Option Props
  monitor_index : Int
deriving DecidableEq

/-- `screenshare_start(...)`: calls `_open_source` and reads the updated
`_SRC` fields into the response. -/
def screenshare_start (env : MssEnv) (s : SrcState)
    (monitor_index left top width height : Int) (scale : ℚ) :
    StartResp × SrcState × List MssOp :=
  let r := _open_source env s monitor_index left top width height scale
  ({ ok := r.ok, message := r.msg, props := r.state.props,
     monitor_index := r.state.monitor_index }, r.state, r.mssOps)

/-- Response dict of `screenshare_status` (`isOpen` models the `open` key). -/
structure StatusResp where
  isOpen : Bool
  monitor_index : Int
  props : Option Props
deriving DecidableEq

/-- `screenshare_status()`: a pure read of `_SRC`. -/
def screenshare_status (s : SrcState) : StatusResp :=
  { isOpen := s.sct, monitor_index := s.monitor_index, props := s.props }

/-- Response dict of `screenshare_stop`. -/
structure StopResp where
  ok : Bool
deriving DecidableEq

/-- `screenshare_stop()`: always `_close_source()` then `{"ok": True}`. -/
def screenshare_stop (closeRaises : Bool) (s : SrcState) : StopResp × SrcState :=
  ({ ok := true }, _close_source closeRaises s)

/-- Outcome of the fallback chain inside `_grab` once a source is open: either
a frame with its final pixel dimensions (scaling already applied), or the
aggregated failure message of all attempted mechanisms. -/
inductive GrabOutcome
  | frame (w h : Int)
  | fail (msg : String)
deriving DecidableEq

/-- `_grab()`: returns the `(ok, img, msg)` triple, where the image is
modelled by its dimensions.  With no open handle or region it fails
immediately with "Screen source not initialized", before any mechanism runs. -/
def _grab (outcome : GrabOutcome) (s : SrcState) :
    Bool × Option (Int × Int) × String :=
  if s.sct = false ∨ s.region = none then
    (false, none, "Screen source not initialized")
  else
    match outcome with
    | .frame w h => (true, some (w, h), "ok")
    | .fail msg => (false, none, msg)

/-- Python `str.lower()`, as a structural character map. -/
def pyLower (s : String) : String :=
  String.mk (s.data.map Char.toLower)

/-- `(fmt or "jpg").lower()`. -/
def pyFmt (fmt : String) : String :=
  pyLower (if fmt = "" then "jpg" else fmt)

/-- The MIME type `_encode_image_pil` resolves for a format string. -/
def mimeOf (fmt : String) : String :=
  if pyFmt fmt = "jpg" then "image/jpeg" else "image/png"

/-- The extension the capture/burst tools derive back from the MIME type. -/
def extOfMime (mime : String) : String :=
  if mime = "image/jpeg" then ".jpg" else ".png"

/-- `_encode_image_pil(img, fmt)` as `(ok, mimeOrError, width, height)`; the
encoded byte payload is not modelled.  On a PIL failure the second component
is the error text `"encode failed: ..."` (the slot the callers read). -/
def _encode_image_pil (encOk : Bool) (encErr : String) (fmt : String)
    (w h : Int) : Bool × String × Int × Int :=
  if encOk then (true, mimeOf fmt, w, h)
  else (false, "encode failed: " ++ encErr, w, h)

/-- Zero-pad a decimal rendering to `k` digits (Python `f"{n:0kd}"` for
non-negative `n`). -/
def padZero (k : Nat) (n : Nat) : String :=
  let s := toString n
  String.mk (List.replicate (k - s.length) '0') ++ s

/-- `_timestamp_name(prefix, ext)` with the strftime text and millisecond
part supplied by the environment. -/
def _timestamp_name (ts : String) (ms : Nat) (pre : String) (ext : String) : String :=
  pre ++ "_" ++ ts ++ "_" ++ padZero 3 ms ++ ext

/-- `os.path.expanduser`, modelled as the identity on path strings. -/
def expanduser (p : String) : String := p

/-- Filesystem side effects performed by the tools. -/
inductive FsOp
  | mkdir (dir : String)
  | write (path : String)
deriving DecidableEq

/-- Environment for one `screenshare_capture` call. -/
structure CaptureEnv where
  grab : GrabOutcome
  encodeOk : Bool
  encodeErr : String
  writeOk : Bool
  writeErr : String
  ts : String
  ms : Nat
deriving DecidableEq

/-- Response dict of `screenshare_capture`; keys absent from a given return
are `none`. -/
structure CaptureResp where
  ok : Bool
  error : Option String := none
  path : Option String := none
  mime : Option String := none
  width : Option Int := none
  height : Option Int := none
deriving DecidableEq

/-- `screenshare_capture(save_dir, format)`.  The file write is wrapped in
`try/except`, so a write failure yields the structured error response. -/
def screenshare_capture (env : CaptureEnv) (s : SrcState)
    (save_dir fmt : String) : CaptureResp × List FsOp :=
  match _grab env.grab s with
  | (false, _, msg) => ({ ok := false, error := some msg }, [])
  | (true, none, msg) => ({ ok := false, error := some msg }, [])
  | (true, some img, _) =>
    match _encode_image_pil env.encodeOk env.encodeErr fmt img.1 img.2 with
    | (false, err, _, _) => ({ ok := false, error := some err }, [])
    | (true, mime, w, h) =>
      let out_dir := expanduser save_dir
      let ext := extOfMime mime
      let fname := _timestamp_name env.ts env.ms "screen" ext
      let fpath := out_dir ++ "/" ++ fname
      if env.writeOk = false then
        ({ ok := false, error := some ("Failed to write file: " ++ env.writeErr) },
         [.mkdir out_dir])
      else
        ({ ok := true, path := some fpath, mime := some mime,
           width := some w, height := some h },
         [.mkdir out_dir, .write fpath])

/-- An exception escaping a tool function (the code has no handler for it). -/
inductive PyExn
  | zeroDivision
  | ioError (path : String)
deriving DecidableEq

/-- A tool call either returns a response dict or lets an exception propagate. -/
inductive PyResult (α : Type)
  | ok (val : α)
  | exn (e : PyExn)
deriving DecidableEq

/-- Environment for one frame of a burst. -/
structure FrameEnv where
  grab : GrabOutcome
  encodeOk : Bool
  encodeErr : String
  writeOk : Bool
  ts : String
  ms : Nat
deriving DecidableEq

/-- Whether every step of a burst frame (grab, encode, file write) succeeds. -/
def frameOk (fe : FrameEnv) : Bool :=
  (match fe.grab with
   | .frame _ _ => true
   | .fail _ => false) && fe.encodeOk && fe.writeOk

/-- The burst frame filename `f"scr_{ts}_{ms:03d}_{i:02d}{ext}"` — it carries
the 0-based sequence index `i`. -/
def burstFname (fe : FrameEnv) (i : Nat) (ext : String) : String :=
  "scr_" ++ fe.ts ++ "_" ++ padZero 3 fe.ms ++ "_" ++ padZero 2 i ++ ext

/-- The full path the burst writes for frame `i`. -/
def burstPath (out_dir fmt : String) (fe : FrameEnv) (i : Nat) : String :=
  out_dir ++ "/" ++ burstFname fe i (extOfMime (mimeOf fmt))

/-- Python 3 `round` (half to even) on the exact quotient. -/
def pyRound (q : ℚ) : Int :=
  if q - ⌊q⌋ < 1/2 then ⌊q⌋
  else if (1:ℚ)/2 < q - ⌊q⌋ then ⌊q⌋ + 1
  else if ⌊q⌋ % 2 = 0 then ⌊q⌋ else ⌊q⌋ + 1

/-- Result of the burst capture loop. -/
inductive LoopOut
  | exn (e : PyExn) (ops : List FsOp)
  | fail (err : String) (paths : List String) (ops : List FsOp)
  | done (paths : List String) (mime : String) (w h : Int) (ops : List FsOp)
deriving DecidableEq

/-- The per-frame loop of `screenshare_burst` (lines 367–392), iterating over
the remaining frame indices and accumulating written paths and effects.
`mimeL`, `wL`, `hL` thread `mime_last`/`w_last`/`h_last`.  The unguarded
`open(fpath, "wb")` means a write failure raises (the `exn` outcome). -/
def burstLoop (env : Nat → FrameEnv) (s : SrcState) (out_dir fmt : String) :
    List Nat → List String → List FsOp → String → Int → Int → LoopOut
  | [], paths, ops, mimeL, wL, hL => .done paths mimeL wL hL ops
  | i :: rest, paths, ops, mimeL, wL, hL =>
    match _grab (env i).grab s with
    | (false, _, msg) => .fail ("Failed to capture: " ++ msg) paths ops
    | (true, none, msg) => .fail ("Failed to capture: " ++ msg) paths ops
    | (true, some img, _) =>
      match _encode_image_pil (env i).encodeOk (env i).encodeErr fmt img.1 img.2 with
      | (false, _, _, _) => .fail "encode failed" paths ops
      | (true, mime, w2, h2) =>
        if (env i).writeOk = false then
          .exn (.ioError (out_dir ++ "/" ++ burstFname (env i) i (extOfMime mime))) ops
        else
          burstLoop env s out_dir fmt rest
            (paths ++ [out_dir ++ "/" ++ burstFname (env i) i (extOfMime mime)])
            (ops ++ [.write (out_dir ++ "/" ++ burstFname (env i) i (extOfMime mime))])
            mime w2 h2

/-- Response dict of `screenshare_burst`; keys absent from a given return are
`none` (the early not-initialized return has no `paths` key). -/
structure BurstResp where
  ok : Bool
  error : Option String := none
  paths : Option (List String) := none
  mime : Option String := none
  width : Option Int := none
  height : Option Int := none
  n : Option Nat := none
  period_ms : Option Int := none
  duration_ms : Option Int := none
  save_dir : Option String := none
deriving DecidableEq

/-- `screenshare_burst(n, period_ms, save_dir, format, warmup, duration_ms)`.
The duration override divides by `float(period_ms)` with no guard, so
`period_ms = 0` with `duration_ms > 0` raises `ZeroDivisionError` (before the
directory is created).  Warmup grabs are discard-only and the timing sleeps
have no modelled effect. -/
def screenshare_burst (env : Nat → FrameEnv) (s : SrcState)
    (n period_ms : Int) (save_dir fmt : String) (warmup duration_ms : Int) :
    PyResult BurstResp × List FsOp :=
  if s.sct = false then
    (.ok { ok := false, error := some "Screen source not initialized" }, [])
  else if 0 < duration_ms ∧ period_ms = 0 then
    (.exn .zeroDivision, [])
  else
    let n2 : Int :=
      if 0 < duration_ms then
        max 1 (pyRound ((duration_ms : ℚ) / (period_ms : ℚ)))
      else n
    let out_dir := expanduser save_dir
    let mime0 := mimeOf fmt
    match burstLoop env s out_dir fmt (List.range (max 1 n2).toNat) [] [] mime0 0 0 with
    | .exn e ops => (.exn e, .mkdir out_dir :: ops)
    | .fail err paths ops =>
      (.ok { ok := false, error := some err, paths := some paths },
       .mkdir out_dir :: ops)
    | .done paths mime w h ops =>
      (.ok { ok := true, paths := some paths, mime := some mime,
             width := some w, height := some h, n := some paths.length,
             period_ms := some period_ms, duration_ms := some duration_ms,
             save_dir := some out_dir },
       .mkdir out_dir :: ops)

/-- One entry of the `list_displays` response. -/
structure DisplayInfo where
  index : Nat
  left : Int
  top : Int
  width : Int
  height : Int
  virtual : Bool
deriving DecidableEq

/-- Response dict of `list_displays`. -/
structure ListDisplaysResp where
  displays : List DisplayInfo
  error : Option String := none
deriving DecidableEq

/-- `list_displays(max_index)`: enumerates monitors, breaking once the index
exceeds `max_index`; any mss failure yields an empty list plus the error. -/
def list_displays (env : MssEnv) (max_index : Int) : ListDisplaysResp :=
  if env.mssOk = false then
    { displays := [], error := some env.mssErr }
  else
    { displays :=
        (env.monitors.take (max_index + 1).toNat).enum.map fun p =>
          { index := p.1, left := p.2.left, top := p.2.top,
            width := p.2.width, height := p.2.height, virtual := p.1 == 0 } }

/-! ### Concrete sample values used by witnesses and counterexamples -/

/-- A sample primary monitor. -/
def sampleMon : Monitor := ⟨0, 0, 1920, 1080⟩

/-- A working mss environment with two monitor entries
(the virtual entry 0 plus one real monitor). -/
def twoMonEnv : MssEnv :=
  { mssOk := true, mssErr := "", monitors := [sampleMon, ⟨0, 0, 1280, 720⟩] }

/-- A state with an open capture source. -/
def openSrc : SrcState :=
  { sct := true, monitor_index := 1, region := some ⟨0, 0, 800, 600⟩, scale := 1,
    props := some { monitor_index := 1, region := ⟨0, 0, 800, 600⟩, scale := 1 } }

/-- A burst frame environment in which every step succeeds. -/
def allOkFrame : FrameEnv :=
  { grab := .frame 640 480, encodeOk := true, encodeErr := "", writeOk := true,
    ts := "20260101_120000", ms := 42 }

/-- A burst where every frame fully succeeds. -/
def allOkEnv : Nat → FrameEnv := fun _ => allOkFrame

/-- A burst whose third frame (index 2) fails to capture. -/
def failAt2Env : Nat → FrameEnv := fun i =>
  if i = 2 then { allOkFrame with grab := .fail "boom" } else allOkFrame

/-- A burst whose every file write raises. -/
def writeFailEnv : Nat → FrameEnv := fun _ => { allOkFrame with writeOk := false }

/-- A sample environment for a single capture call. -/
def sampleCaptureEnv : CaptureEnv :=
  { grab := .frame 640 480, encodeOk := true, encodeErr := "", writeOk := true,
    writeErr := "", ts := "20260101_120000", ms := 7 }

/-! ### Helper lemmas about the burst loop -/

/-- A fully successful frame advances the loop, appending the frame's path and
its write effect. -/
theorem burstLoop_cons_ok (env : Nat → FrameEnv) (s : SrcState) (rg : Region)
    (out_dir fmt : String) (i : Nat) (rest : List Nat)
    (paths : List String) (ops : List FsOp) (mimeL : String) (wL hL : Int)
    (hs : s.sct = true) (hr : s.region = some rg)
    (hok : frameOk (env i) = true) :
    ∃ w2 h2,
      burstLoop env s out_dir fmt (i :: rest) paths ops mimeL wL hL =
      burstLoop env s out_dir fmt rest
        (paths ++ [burstPath out_dir fmt (env i) i])
        (ops ++ [.write (burstPath out_dir fmt (env i) i)]) (mimeOf fmt) w2 h2 := by
  have h3 : ((match (env i).grab with
      | .frame _ _ => true
      | .fail _ => false) = true)
      ∧ (env i).encodeOk = true ∧ (env i).writeOk = true := by
    simpa [frameOk, Bool.and_eq_true, and_assoc] using hok
  obtain ⟨w, h, hgrab⟩ : ∃ w h, (env i).grab = .frame w h := by
    cases hg : (env i).grab with
    | frame w h => exact ⟨w, h, rfl⟩
    | fail m => rw [hg] at h3; simp at h3
  have hgr : _grab (env i).grab s = (true, some (w, h), "ok") := by
    simp [_grab, hs, hr, hgrab]
  have hen : _encode_image_pil (env i).encodeOk (env i).encodeErr fmt w h
      = (true, mimeOf fmt, w, h) := by
    simp [_encode_image_pil, h3.2.1]
  refine ⟨w, h, ?_⟩
  simp only [burstLoop, hgr, hen, h3.2.2, Bool.true_eq_false, if_false, burstPath]

/-- A frame whose grab or encode fails stops the loop with a `fail` outcome,
keeping the accumulated paths and effects. -/
theorem burstLoop_cons_bad (env : Nat → FrameEnv) (s : SrcState) (rg : Region)
    (out_dir fmt : String) (i : Nat) (rest : List Nat)
    (paths : List String) (ops : List FsOp) (mimeL : String) (wL hL : Int)
    (hs : s.sct = true) (hr : s.region = some rg)
    (hbad : (∃ m, (env i).grab = .fail m) ∨ (env i).encodeOk = false) :
    ∃ err, burstLoop env s out_dir fmt (i :: rest) paths ops mimeL wL hL =
      .fail err paths ops := by
  cases hg : (env i).grab with
  | fail m =>
    refine ⟨"Failed to capture: " ++ m, ?_⟩
    have hgr : _grab (env i).grab s = (false, none, m) := by
      simp [_grab, hs, hr, hg]
    simp only [burstLoop, hgr]
  | frame w h =>
    have henc : (env i).encodeOk = false := by
      rcases hbad with ⟨m, hm⟩ | he
      · rw [hg] at hm; simp at hm
      · exact he
    refine ⟨"encode failed", ?_⟩
    have hgr : _grab (env i).grab s = (true, some (w, h), "ok") := by
      simp [_grab, hs, hr, hg]
    have hen : _encode_image_pil (env i).encodeOk (env i).encodeErr fmt w h
        = (false, "encode failed: " ++ (env i).encodeErr, w, h) := by
      simp [_encode_image_pil, henc]
    simp only [burstLoop, hgr, hen]

/-- Running the loop through a block of fully successful frames appends their
paths and write effects in index order. -/
theorem burstLoop_append_ok (env : Nat → FrameEnv) (s : SrcState) (rg : Region)
    (out_dir fmt : String) (hs : s.sct = true) (hr : s.region = some rg)
    (idxs1 : List Nat) :
    ∀ (idxs2 : List Nat) (paths : List String) (ops : List FsOp)
      (mimeL : String) (wL hL : Int),
      (∀ j ∈ idxs1, frameOk (env j) = true) →
      ∃ mime2 w2 h2,
        burstLoop env s out_dir fmt (idxs1 ++ idxs2) paths ops mimeL wL hL =
        burstLoop env s out_dir fmt idxs2
          (paths ++ idxs1.map fun j => burstPath out_dir fmt (env j) j)
          (ops ++ idxs1.map fun j => FsOp.write (burstPath out_dir fmt (env j) j))
          mime2 w2 h2 := by
  induction idxs1 with
  | nil =>
    intro idxs2 paths ops mimeL wL hL _
    exact ⟨mimeL, wL, hL, by simp⟩
  | cons i tl ih =>
    intro idxs2 paths ops mimeL wL hL hok
    obtain ⟨w2, h2, hstep⟩ := burstLoop_cons_ok env s rg out_dir fmt i (tl ++ idxs2)
      paths ops mimeL wL hL hs hr (hok i (List.mem_cons_self i tl))
    obtain ⟨m3, w3, h3, hrec⟩ := ih idxs2
      (paths ++ [burstPath out_dir fmt (env i) i])
      (ops ++ [FsOp.write (burstPath out_dir fmt (env i) i)])
      (mimeOf fmt) w2 h2 (fun j hj => hok j (List.mem_cons_of_mem i hj))
    refine ⟨m3, w3, h3, ?_⟩
    rw [List.cons_append, hstep, hrec]
    simp [List.append_assoc]

/-- Unfolding of `screenshare_burst` when a source is open and the duration
override does not divide by zero. -/
theorem screenshare_burst_open (env : Nat → FrameEnv) (s : SrcState)
    (n period_ms : Int) (save_dir fmt : String) (warmup duration_ms : Int)
    (hs : s.sct = true) (hnd : ¬ (0 < duration_ms ∧ period_ms = 0)) :
    screenshare_burst env s n period_ms save_dir fmt warmup duration_ms =
      match burstLoop env s (expanduser save_dir) fmt
          (List.range (max 1 (if 0 < duration_ms then
              max 1 (pyRound ((duration_ms : ℚ) / (period_ms : ℚ))) else n)).toNat)
          [] [] (mimeOf fmt) 0 0 with
      | .exn e ops => (.exn e, .mkdir (expanduser save_dir) :: ops)
      | .fail err paths ops =>
        (.ok { ok := false, error := some err, paths := some paths },
         .mkdir (expanduser save_dir) :: ops)
      | .done paths mime w h ops =>
        (.ok { ok := true, paths := some paths, mime := some mime,
               width := some w, height := some h, n := some paths.length,
               period_ms := some period_ms, duration_ms := some duration_ms,
               save_dir := some (expanduser save_dir) },
         .mkdir (expanduser save_dir) :: ops) := by
  unfold screenshare_burst
  rw [hs]
  simp [hnd]

/-! ### Claim theorems -/

/-- C1: the claim says every tool-facing operation converts every internal
error to an `ok:false` response, and in particular that `screenshare_burst`
never raises, for any `period_ms` (including 0) and any file-write failure.
The code contradicts this (a code bug — `screenshare_capture` wraps the same
write in `try/except` and the docstring promises structured results):
with a source open, `screenshare_burst(duration_ms=500, period_ms=0)` raises
`ZeroDivisionError` from the unguarded `float(duration_ms)/float(period_ms)`,
and a failing frame write raises an uncaught `IOError` from the unguarded
`open(fpath, "wb")`. -/
theorem c1_burst_uncaught_exceptions :
    screenshare_burst allOkEnv openSrc 3 0 "." "jpg" 0 500 =
      (.exn .zeroDivision, []) ∧
    screenshare_burst writeFailEnv openSrc 1 150 "." "jpg" 0 0 =
      (.exn (.ioError "./scr_20260101_120000_042_00.jpg"), [.mkdir "."]) := by
  constructor
  · rfl
  · decide

/-- C2: if a source is already open, `screenshare_start` returns success
immediately with the message of the idempotent no-op branch; the stored
configuration is unchanged (its arguments are ignored — the response and the
state do not depend on them), and a subsequent `screenshare_status` call
reflects the configuration from before the call. -/
theorem c2_start_idempotent (env : MssEnv) (s : SrcState)
    (mi l t w h : Int) (sc : ℚ) (hs : s.sct = true) :
    screenshare_start env s mi l t w h sc =
      ({ ok := true, message := "Screen capture already initialized",
         props := s.props, monitor_index := s.monitor_index }, s, []) ∧
    screenshare_status (screenshare_start env s mi l t w h sc).2.1 =
      screenshare_status s := by
  constructor <;> simp [screenshare_start, _open_source, hs]

/-- Witness for C2: a second `start` with different arguments against an open
source returns success with the existing configuration and leaves the state
untouched. -/
theorem c2_start_idempotent_witness :
    screenshare_start twoMonEnv openSrc 3 9 9 9 9 (1/2) =
      ({ ok := true, message := "Screen capture already initialized",
         props := openSrc.props, monitor_index := openSrc.monitor_index },
       openSrc, []) ∧
    screenshare_status (screenshare_start twoMonEnv openSrc 3 9 9 9 9 (1/2)).2.1 =
      screenshare_status openSrc :=
  c2_start_idempotent twoMonEnv openSrc 3 9 9 9 9 (1/2) rfl

/-- C3 counterexample: the claim declares every `displayIndex` outside
`[0, N-1]` invalid, "where N+1 is the number of entries including the virtual
index 0".  With 2 enumerated entries that makes N = 1 and the claimed valid
range `[0, 0]`, so index 1 should fail — but the code accepts every index up
to `len(monitors)-1`: `start` with index 1 succeeds and opens a source. -/
theorem c3_counterexample :
    twoMonEnv.monitors.length = 2 ∧
    (screenshare_start twoMonEnv defaultSrc 1 0 0 0 0 1).1.ok = true ∧
    (screenshare_start twoMonEnv defaultSrc 1 0 0 0 0 1).2.1.sct = true := by
  refine ⟨rfl, ?_, ?_⟩ <;> rfl

/-- C3 amended: for every `displayIndex` outside `[0, N]` — that is, outside
`0..len(monitors)-1` where the count includes the virtual index 0 — starting
with no source open, `screenshare_start` returns failure naming the invalid
index, the just-acquired mss handle is released, the state is unchanged, and
`status` afterwards reports `open:false`. -/
theorem c3_invalid_index_amended (env : MssEnv) (s : SrcState)
    (mi l t w h : Int) (sc : ℚ)
    (hs : s.sct = false) (henv : env.mssOk = true)
    (hout : mi < 0 ∨ (env.monitors.length : Int) ≤ mi) :
    screenshare_start env s mi l t w h sc =
      ({ ok := false,
         message := "Invalid monitor_index " ++ toString mi ++
           "; available 0.." ++ toString ((env.monitors.length : Int) - 1),
         props := s.props, monitor_index := s.monitor_index },
       s, [.acquire, .close]) ∧
    (screenshare_status (screenshare_start env s mi l t w h sc).2.1).isOpen
      = false := by
  have hopen : _open_source env s mi l t w h sc =
      { ok := false,
        msg := "Invalid monitor_index " ++ toString mi ++
          "; available 0.." ++ toString ((env.monitors.length : Int) - 1),
        state := s, mssOps := [.acquire, .close] } := by
    unfold _open_source
    rw [hs, henv]
    simp [hout]
  constructor
  · simp [screenshare_start, hopen]
  · simp [screenshare_start, hopen, screenshare_status, hs]

/-- Witness for C3 (amended): index 5 against 2 enumerated entries fails with
the message naming index 5, releases the handle, and leaves no source open. -/
theorem c3_invalid_index_amended_witness :
    screenshare_start twoMonEnv defaultSrc 5 0 0 0 0 1 =
      ({ ok := false,
         message := "Invalid monitor_index " ++ toString (5 : Int) ++
           "; available 0.." ++ toString ((twoMonEnv.monitors.length : Int) - 1),
         props := defaultSrc.props, monitor_index := defaultSrc.monitor_index },
       defaultSrc, [.acquire, .close]) ∧
    (screenshare_status
        (screenshare_start twoMonEnv defaultSrc 5 0 0 0 0 1).2.1).isOpen
      = false :=
  c3_invalid_index_amended twoMonEnv defaultSrc 5 0 0 0 0 1 rfl rfl
    (Or.inr (by decide))

/-- C4: on a valid open of a new source (no source open, mss reachable, index
in range, display geometry with positive extents), the resolved region equals
the full display bounds when `width ≤ 0` or `height ≤ 0`, and otherwise the
display origin plus `max(0,·)` offsets and `max(1,·)` extents; in every case
its width and height are at least 1. -/
theorem c4_region_resolution (env : MssEnv) (s : SrcState)
    (mi l t w h : Int) (sc : ℚ) (mon : Monitor)
    (hs : s.sct = false) (henv : env.mssOk = true)
    (h0 : 0 ≤ mi) (hlt : mi < (env.monitors.length : Int))
    (hmon : env.monitors[mi.toNat]? = some mon)
    (hw : 1 ≤ mon.width) (hh : 1 ≤ mon.height) :
    (_open_source env s mi l t w h sc).ok = true ∧
    ∃ reg, (_open_source env s mi l t w h sc).state.region = some reg ∧
      (w ≤ 0 ∨ h ≤ 0 →
        reg = { left := mon.left, top := mon.top,
                width := mon.width, height := mon.height }) ∧
      (0 < w → 0 < h →
        reg = { left := mon.left + max 0 l, top := mon.top + max 0 t,
                width := max 1 w, height := max 1 h }) ∧
      1 ≤ reg.width ∧ 1 ≤ reg.height := by
  have hnot : ¬ (mi < 0 ∨ (env.monitors.length : Int) ≤ mi) := by omega
  have hgd : env.monitors.getD mi.toNat ⟨0, 0, 0, 0⟩ = mon := by
    rw [List.getD_eq_getElem?_getD, hmon]
    rfl
  have hopen : _open_source env s mi l t w h sc =
      { ok := true, msg := "Screen source initialized",
        state := { sct := true, monitor_index := mi,
                   region := some (resolveRegion mon l t w h),
                   scale := clampScale sc,
                   props := some { monitor_index := mi,
                                   region := resolveRegion mon l t w h,
                                   scale := clampScale sc } },
        mssOps := [.acquire] } := by
    unfold _open_source
    rw [hs, henv]
    simp [hnot, hgd, hmon]
  rw [hopen]
  refine ⟨rfl, resolveRegion mon l t w h, rfl, ?_, ?_, ?_, ?_⟩
  · intro hc
    simp [resolveRegion, hc]
  · intro hwpos hhpos
    have hc : ¬ (w ≤ 0 ∨ h ≤ 0) := by omega
    simp [resolveRegion, hc]
  · by_cases hc : w ≤ 0 ∨ h ≤ 0 <;> simp [resolveRegion, hc] <;> omega
  · by_cases hc : w ≤ 0 ∨ h ≤ 0 <;> simp [resolveRegion, hc] <;> omega

/-- Witness for C4: opening monitor 0 of the two-entry environment with a
non-positive requested size resolves to the full 1920×1080 display bounds. -/
theorem c4_region_resolution_witness :
    (_open_source twoMonEnv defaultSrc 0 0 0 0 0 1).ok = true ∧
    ∃ reg, (_open_source twoMonEnv defaultSrc 0 0 0 0 0 1).state.region = some reg ∧
      ((0 : Int) ≤ 0 ∨ (0 : Int) ≤ 0 →
        reg = { left := sampleMon.left, top := sampleMon.top,
                width := sampleMon.width, height := sampleMon.height }) ∧
      ((0 : Int) < 0 → (0 : Int) < 0 →
        reg = { left := sampleMon.left + max 0 0, top := sampleMon.top + max 0 0,
                width := max 1 0, height := max 1 0 }) ∧
      1 ≤ reg.width ∧ 1 ≤ reg.height :=
  c4_region_resolution twoMonEnv defaultSrc 0 0 0 0 0 1 sampleMon rfl rfl
    (by decide) (by decide) rfl (by decide) (by decide)

/-- C7: `screenshare_capture` with no open source returns `ok:false` with the
not-initialized error, and performs no file write and no directory creation. -/
theorem c7_capture_not_initialized (env : CaptureEnv) (s : SrcState)
    (save_dir fmt : String) (hs : s.sct = false) :
    screenshare_capture env s save_dir fmt =
      ({ ok := false, error := some "Screen source not initialized" }, []) := by
  have hgr : _grab env.grab s = (false, none, "Screen source not initialized") := by
    simp [_grab, hs]
  simp [screenshare_capture, hgr]

/-- Witness for C7: capture against the default (closed) state. -/
theorem c7_capture_not_initialized_witness :
    screenshare_capture sampleCaptureEnv defaultSrc "~/.screen_frames" "jpg" =
      ({ ok := false, error := some "Screen source not initialized" }, []) :=
  c7_capture_not_initialized sampleCaptureEnv defaultSrc "~/.screen_frames" "jpg" rfl

/-- C5 counterexample: the claim's override formula is asserted "for every
periodMs", but with `period_ms = 0` and `duration_ms > 0` the unguarded float
division raises `ZeroDivisionError` — no count is computed and no response
(with any `n`) is returned. -/
theorem c5_counterexample :
    screenshare_burst allOkEnv openSrc 8 0 "." "jpg" 0 1000 =
      (.exn .zeroDivision, []) := rfl

/-- C5 amended: for every `period_ms ≠ 0`, a burst with `duration_ms > 0`
(run here to completion on an all-success environment) overrides the requested
count with `round(duration_ms / period_ms)` floored to a minimum of 1 — the
achieved count reported in the response is exactly that value.  At
`period_ms = 0` the call instead raises `ZeroDivisionError`. -/
theorem c5_duration_override_amended (env : Nat → FrameEnv) (s : SrcState)
    (rg : Region) (n period_ms : Int) (save_dir fmt : String)
    (warmup duration_ms : Int)
    (hs : s.sct = true) (hr : s.region = some rg)
    (hd : 0 < duration_ms) (hp : period_ms ≠ 0)
    (hok : ∀ i, frameOk (env i) = true) :
    ∃ resp ops,
      screenshare_burst env s n period_ms save_dir fmt warmup duration_ms =
        (.ok resp, ops) ∧
      resp.ok = true ∧
      resp.n = some (max 1 (pyRound ((duration_ms : ℚ) / (period_ms : ℚ)))).toNat := by
  have hnd : ¬ (0 < duration_ms ∧ period_ms = 0) := by tauto
  have hm : max (1:Int) (max 1 (pyRound ((duration_ms : ℚ) / (period_ms : ℚ)))) =
      max 1 (pyRound ((duration_ms : ℚ) / (period_ms : ℚ))) := by
    rw [← max_assoc, max_self]
  obtain ⟨m2, w2, h2, hloop⟩ := burstLoop_append_ok env s rg (expanduser save_dir)
    fmt hs hr
    (List.range (max 1 (pyRound ((duration_ms : ℚ) / (period_ms : ℚ)))).toNat)
    [] [] [] (mimeOf fmt) 0 0 (fun j _ => hok j)
  rw [List.append_nil] at hloop
  simp only [List.nil_append] at hloop
  refine ⟨{ ok := true,
            paths := some ((List.range
                (max 1 (pyRound ((duration_ms : ℚ) / (period_ms : ℚ)))).toNat).map
              fun j => burstPath (expanduser save_dir) fmt (env j) j),
            mime := some m2, width := some w2, height := some h2,
            n := some ((List.range
                (max 1 (pyRound ((duration_ms : ℚ) / (period_ms : ℚ)))).toNat).map
              fun j => burstPath (expanduser save_dir) fmt (env j) j).length,
            period_ms := some period_ms, duration_ms := some duration_ms,
            save_dir := some (expanduser save_dir) },
          .mkdir (expanduser save_dir) ::
            (List.range
                (max 1 (pyRound ((duration_ms : ℚ) / (period_ms : ℚ)))).toNat).map
              (fun j => FsOp.write (burstPath (expanduser save_dir) fmt (env j) j)),
          ?_, rfl, by simp⟩
  rw [screenshare_burst_open env s n period_ms save_dir fmt warmup duration_ms hs hnd,
    if_pos hd, hm, hloop]
  rfl

/-- Witness for C5 (amended): `duration_ms=1000` with `period_ms=200` yields
an achieved count of 5. -/
theorem c5_duration_override_amended_witness :
    ∃ resp ops,
      screenshare_burst allOkEnv openSrc 8 200 "." "jpg" 0 1000 =
        (.ok resp, ops) ∧
      resp.ok = true ∧ resp.n = some 5 := by
  obtain ⟨resp, ops, h1, h2, h3⟩ := c5_duration_override_amended allOkEnv openSrc
    ⟨0, 0, 800, 600⟩ 8 200 "." "jpg" 0 1000 rfl rfl (by decide) (by decide)
    (fun i => rfl)
  refine ⟨resp, ops, h1, h2, ?_⟩
  rw [h3]
  norm_num [pyRound]
  decide

/-- C6: in a burst whose frames before index `i` fully succeed and whose
frame `i` is the first to fail in capture or encode, the burst aborts at `i`
with `ok:false`, returning exactly the `i` already-written paths in index
order, and the `i` files written stay written (the effect list keeps them). -/
theorem c6_burst_partial_failure (env : Nat → FrameEnv) (s : SrcState)
    (rg : Region) (n period_ms : Int) (save_dir fmt : String) (warmup : Int)
    (i : Nat)
    (hs : s.sct = true) (hr : s.region = some rg)
    (hi : i < (max 1 n).toNat)
    (hpre : ∀ j, j < i → frameOk (env j) = true)
    (hbad : (∃ m, (env i).grab = .fail m) ∨ (env i).encodeOk = false) :
    ∃ resp, screenshare_burst env s n period_ms save_dir fmt warmup 0 =
      (.ok resp,
        .mkdir (expanduser save_dir) ::
          (List.range i).map fun j =>
            FsOp.write (burstPath (expanduser save_dir) fmt (env j) j)) ∧
      resp.ok = false ∧ resp.error.isSome = true ∧
      resp.paths = some ((List.range i).map fun j =>
        burstPath (expanduser save_dir) fmt (env j) j) ∧
      resp.paths.map List.length = some i := by
  have hnd : ¬ ((0:Int) < 0 ∧ period_ms = 0) := by simp
  have hsplit : List.range ((max 1 n).toNat) =
      List.range i ++ i :: List.range' (i + 1) ((max 1 n).toNat - i - 1) := by
    obtain ⟨k, hk⟩ : ∃ k, (max 1 n).toNat - i - 1 = k := ⟨_, rfl⟩
    have h1 : (k + 1) + i = (max 1 n).toNat := by omega
    rw [hk, List.range_eq_range', ← h1, ← List.range'_append_1 0 i (k + 1),
      List.range'_succ]
    simp [List.range_eq_range']
  obtain ⟨m2, w2, h2, hloop⟩ := burstLoop_append_ok env s rg (expanduser save_dir)
    fmt hs hr (List.range i)
    (i :: List.range' (i + 1) ((max 1 n).toNat - i - 1)) [] [] (mimeOf fmt) 0 0
    (fun j hj => hpre j (List.mem_range.mp hj))
  simp only [List.nil_append] at hloop
  obtain ⟨err, hfail⟩ := burstLoop_cons_bad env s rg (expanduser save_dir) fmt i
    (List.range' (i + 1) ((max 1 n).toNat - i - 1))
    ((List.range i).map fun j => burstPath (expanduser save_dir) fmt (env j) j)
    ((List.range i).map fun j =>
      FsOp.write (burstPath (expanduser save_dir) fmt (env j) j))
    m2 w2 h2 hs hr hbad
  refine ⟨{ ok := false, error := some err,
            paths := some ((List.range i).map fun j =>
              burstPath (expanduser save_dir) fmt (env j) j) },
          ?_, rfl, rfl, rfl, by simp⟩
  rw [screenshare_burst_open env s n period_ms save_dir fmt warmup 0 hs hnd]
  simp only [lt_self_iff_false, if_false]
  rw [hsplit, hloop, hfail]

/-- Witness for C6: a burst of 5 whose 3rd frame (index 2) fails to capture
returns `ok:false` with exactly the 2 already-written paths. -/
theorem c6_burst_partial_failure_witness :
    ∃ resp, screenshare_burst failAt2Env openSrc 5 100 "." "jpg" 0 0 =
      (.ok resp,
        .mkdir (expanduser ".") ::
          (List.range 2).map fun j =>
            FsOp.write (burstPath (expanduser ".") "jpg" (failAt2Env j) j)) ∧
      resp.ok = false ∧ resp.error.isSome = true ∧
      resp.paths = some ((List.range 2).map fun j =>
        burstPath (expanduser ".") "jpg" (failAt2Env j) j) ∧
      resp.paths.map List.length = some 2 :=
  c6_burst_partial_failure failAt2Env openSrc ⟨0, 0, 800, 600⟩ 5 100 "." "jpg" 0 2
    rfl rfl (by decide)
    (by intro j hj; interval_cases j <;> rfl)
    (Or.inl ⟨"boom", rfl⟩)

/-- C8: a burst with `n ≥ 1` and `duration_ms = 0` in which every grab,
encode and write succeeds returns `ok:true` with exactly `n` paths, writes
exactly `n` files, and the `j`-th path carries sequence index `j` (so paths
are in strictly increasing sequence order, appended in capture order). -/
theorem c8_burst_success_paths (env : Nat → FrameEnv) (s : SrcState)
    (rg : Region) (n period_ms : Int) (save_dir fmt : String) (warmup : Int)
    (hs : s.sct = true) (hr : s.region = some rg) (hn : 1 ≤ n)
    (hok : ∀ i, frameOk (env i) = true) :
    ∃ resp, screenshare_burst env s n period_ms save_dir fmt warmup 0 =
      (.ok resp,
        .mkdir (expanduser save_dir) ::
          (List.range n.toNat).map fun j =>
            FsOp.write (burstPath (expanduser save_dir) fmt (env j) j)) ∧
      resp.ok = true ∧
      resp.paths = some ((List.range n.toNat).map fun j =>
        burstPath (expanduser save_dir) fmt (env j) j) ∧
      resp.n = some n.toNat := by
  have hnd : ¬ ((0:Int) < 0 ∧ period_ms = 0) := by simp
  have hmax : max (1:Int) n = n := max_eq_right hn
  obtain ⟨m2, w2, h2, hloop⟩ := burstLoop_append_ok env s rg (expanduser save_dir)
    fmt hs hr (List.range n.toNat) [] [] [] (mimeOf fmt) 0 0 (fun j _ => hok j)
  rw [List.append_nil] at hloop
  simp only [List.nil_append] at hloop
  refine ⟨{ ok := true,
            paths := some ((List.range n.toNat).map fun j =>
              burstPath (expanduser save_dir) fmt (env j) j),
            mime := some m2, width := some w2, height := some h2,
            n := some ((List.range n.toNat).map fun j =>
              burstPath (expanduser save_dir) fmt (env j) j).length,
            period_ms := some period_ms, duration_ms := some 0,
            save_dir := some (expanduser save_dir) }, ?_, rfl, rfl, by simp⟩
  rw [screenshare_burst_open env s n period_ms save_dir fmt warmup 0 hs hnd]
  simp only [lt_self_iff_false, if_false]
  rw [hmax, hloop]
  rfl

/-- Witness for C8: `burst(n=5, period_ms=100, duration_ms=0)` on an
all-success environment produces exactly the 5 sequence-indexed paths. -/
theorem c8_burst_success_paths_witness :
    ∃ resp, screenshare_burst allOkEnv openSrc 5 100 "." "jpg" 0 0 =
      (.ok resp,
        .mkdir (expanduser ".") ::
          (List.range (5 : Int).toNat).map fun j =>
            FsOp.write (burstPath (expanduser ".") "jpg" (allOkEnv j) j)) ∧
      resp.ok = true ∧
      resp.paths = some ((List.range (5 : Int).toNat).map fun j =>
        burstPath (expanduser ".") "jpg" (allOkEnv j) j) ∧
      resp.n = some (5 : Int).toNat :=
  c8_burst_success_paths allOkEnv openSrc ⟨0, 0, 800, 600⟩ 5 100 "." "jpg" 0
    rfl rfl (by decide) (fun i => rfl)

/-- C10: a burst with `n ≤ 0` and `duration_ms = 0` against an open source
still runs exactly one capture iteration — the count is silently raised to 1,
and a fully successful call returns exactly one path (and writes one file). -/
theorem c10_burst_min_one (env : Nat → FrameEnv) (s : SrcState) (rg : Region)
    (n period_ms : Int) (save_dir fmt : String) (warmup : Int)
    (hs : s.sct = true) (hr : s.region = some rg) (hn : n ≤ 0)
    (h0 : frameOk (env 0) = true) :
    ∃ resp, screenshare_burst env s n period_ms save_dir fmt warmup 0 =
      (.ok resp,
       [.mkdir (expanduser save_dir),
        .write (burstPath (expanduser save_dir) fmt (env 0) 0)]) ∧
      resp.ok = true ∧
      resp.paths = some [burstPath (expanduser save_dir) fmt (env 0) 0] ∧
      resp.n = some 1 := by
  have hnd : ¬ ((0:Int) < 0 ∧ period_ms = 0) := by simp
  have hmax : max (1:Int) n = 1 := max_eq_left (by omega)
  obtain ⟨w2, h2, hstep⟩ := burstLoop_cons_ok env s rg (expanduser save_dir) fmt 0
    [] [] [] (mimeOf fmt) 0 0 hs hr h0
  refine ⟨{ ok := true,
            paths := some [burstPath (expanduser save_dir) fmt (env 0) 0],
            mime := some (mimeOf fmt), width := some w2, height := some h2,
            n := some [burstPath (expanduser save_dir) fmt (env 0) 0].length,
            period_ms := some period_ms, duration_ms := some 0,
            save_dir := some (expanduser save_dir) }, ?_, rfl, rfl, rfl⟩
  rw [screenshare_burst_open env s n period_ms save_dir fmt warmup 0 hs hnd]
  simp only [lt_self_iff_false, if_false]
  rw [hmax]
  have hr1 : List.range ((1 : Int)).toNat = [0] := rfl
  rw [hr1, hstep]
  simp only [List.nil_append]
  rfl

/-- Witness for C10: `n = -3` with an all-success environment yields exactly
one path. -/
theorem c10_burst_min_one_witness :
    ∃ resp, screenshare_burst allOkEnv openSrc (-3) 100 "." "jpg" 0 0 =
      (.ok resp,
       [.mkdir (expanduser "."),
        .write (burstPath (expanduser ".") "jpg" (allOkEnv 0) 0)]) ∧
      resp.ok = true ∧
      resp.paths = some [burstPath (expanduser ".") "jpg" (allOkEnv 0) 0] ∧
      resp.n = some 1 :=
  c10_burst_min_one allOkEnv openSrc ⟨0, 0, 800, 600⟩ (-3) 100 "." "jpg" 0
    rfl rfl (by decide) rfl

/-- C9: `screenshare_stop` always returns `ok:true` and resets the source to
its empty default (release errors swallowed — the result does not depend on
whether `sct.close()` raises): afterwards `status` reports `open:false`,
`monitor_index` 1 and empty props, and a second `stop` is the same no-op
success, from any state. -/
theorem c9_stop_reset (b b2 : Bool) (s : SrcState) :
    screenshare_stop b s =
      ({ ok := true },
       { sct := false, monitor_index := 1, region := none, scale := 1,
         props := none }) ∧
    screenshare_status (screenshare_stop b s).2 =
      { isOpen := false, monitor_index := 1, props := none } ∧
    screenshare_stop b2 (screenshare_stop b s).2 =
      ({ ok := true },
       { sct := false, monitor_index := 1, region := none, scale := 1,
         props := none }) :=
  ⟨rfl, rfl, rfl⟩

end ScreenMCP
